import Mathlib

/-!
Verification of the front-end scripts of the Intel-Website-Localization
repository: the timeline scroll adapter (wheel-to-horizontal-scroll
mapping, keyboard scrolling, milestone-card toggling) and the RTL/LTR
direction resolver.  Numeric quantities carried by DOM events are
modelled as exact rationals.
-/

/-- A wheel event as delivered by the browser: horizontal and vertical
deltas together with the delta mode (0 = pixel, 1 = line, 2 = page). -/
structure WheelEvent where
  deltaX : ℚ
  deltaY : ℚ
  deltaMode : Nat
  deriving DecidableEq

/-- An argument to `element.scrollBy`: a relative horizontal offset and
the scrolling behavior string. -/
structure ScrollRequest where
  left : ℚ
  behavior : String
  deriving DecidableEq

/-- The observable outcome of one event-handler invocation: whether
`preventDefault` was called and which relative scroll, if any, was
requested via `scrollBy`. -/
structure HandlerResult where
  preventDefault : Bool
  scroll : Option ScrollRequest
  deriving DecidableEq

/-- `canScrollHorizontally` from script.js:
`timeline.scrollWidth > timeline.clientWidth + 1`. -/
def canScrollHorizontally (scrollWidth clientWidth : ℚ) : Bool :=
  decide (scrollWidth > clientWidth + 1)

/-- `normalizeDeltaY` from script.js: line-mode deltas are scaled by 16,
page-mode deltas by 800, anything else is returned unchanged. -/
def normalizeDeltaY (e : WheelEvent) : ℚ :=
  if e.deltaMode = 1 then e.deltaY * 16
  else if e.deltaMode = 2 then e.deltaY * 800
  else e.deltaY

/-- `onWheel` from script.js, as a function of the container dimensions
read at event time and the incoming wheel event. -/
def onWheel (scrollWidth clientWidth : ℚ) (e : WheelEvent) : HandlerResult :=
  if ! canScrollHorizontally scrollWidth clientWidth then ⟨false, none⟩
  else if |e.deltaY| > |e.deltaX| then
    ⟨true, some ⟨normalizeDeltaY e * 1.2, "auto"⟩⟩
  else ⟨false, none⟩

/-- The keydown handler attached to the timeline in script.js, as a
function of the container's client width and the event's key string. -/
def onKeydown (clientWidth : ℚ) (k : String) : HandlerResult :=
  let small : ℚ := 260
  let big : ℚ := clientWidth * 0.8
  if k = "ArrowRight" then ⟨true, some ⟨small, "smooth"⟩⟩
  else if k = "ArrowLeft" then ⟨true, some ⟨-small, "smooth"⟩⟩
  else if k = "PageDown" then ⟨true, some ⟨big, "smooth"⟩⟩
  else if k = "PageUp" then ⟨true, some ⟨-big, "smooth"⟩⟩
  else ⟨false, none⟩

/-- Claim C1: the wheel handler calls `preventDefault` and issues a
relative horizontal scroll if and only if the container overflows
horizontally (`scrollWidth > clientWidth + 1`) and the event's absolute
vertical delta strictly exceeds its absolute horizontal delta; in every
other case it issues no scroll and does not call `preventDefault`. -/
theorem wheel_guard_iff (sw cw : ℚ) (e : WheelEvent) :
    (((onWheel sw cw e).preventDefault = true ∧
        ((onWheel sw cw e).scroll).isSome = true)
      ↔ (sw > cw + 1 ∧ |e.deltaY| > |e.deltaX|))
    ∧ (¬ (sw > cw + 1 ∧ |e.deltaY| > |e.deltaX|) →
        onWheel sw cw e = ⟨false, none⟩) := by
  unfold onWheel canScrollHorizontally
  by_cases h1 : sw > cw + 1
  · by_cases h2 : |e.deltaY| > |e.deltaX|
    · simp [h1, h2]
    · simp [h1, h2]
  · simp [h1]

/-- Concrete instance of C1: with no horizontal overflow the handler
leaves the event untouched. -/
theorem wheel_guard_iff_witness :
    onWheel 500 500 ⟨0, 100, 0⟩ = ⟨false, none⟩ :=
  (wheel_guard_iff 500 500 ⟨0, 100, 0⟩).2 (by norm_num)

/-- Claim C5: whenever the wheel handler issues a scroll, the requested
relative offset equals `deltaY` times the mode factor (16 in line mode,
800 in page mode, 1 otherwise) times the fixed speed 1.2. -/
theorem wheel_delta_value (sw cw : ℚ) (e : WheelEvent) (r : ScrollRequest)
    (h : (onWheel sw cw e).scroll = some r) :
    r.left = e.deltaY *
      (if e.deltaMode = 1 then 16 else if e.deltaMode = 2 then 800 else (1 : ℚ))
      * 1.2 := by
  unfold onWheel at h
  by_cases h1 : canScrollHorizontally sw cw
  · by_cases h2 : |e.deltaY| > |e.deltaX|
    · simp [h1, h2] at h
      subst h
      unfold normalizeDeltaY
      by_cases m1 : e.deltaMode = 1
      · simp [m1]
      · by_cases m2 : e.deltaMode = 2
        · simp [m1, m2]
        · simp [m1, m2]
    · simp [h1, h2] at h
  · simp [h1] at h

/-- Concrete instance of C5: deltaY = 100 in pixel mode requests 120
units (100 × 1.2), and deltaY = 10 in line mode normalizes to 160. -/
theorem wheel_delta_value_witness :
    (onWheel 1000 500 ⟨0, 100, 0⟩).scroll = some ⟨120, "auto"⟩
    ∧ (ScrollRequest.mk 120 "auto").left =
        100 * (if (0 : Nat) = 1 then 16 else if (0 : Nat) = 2 then 800 else (1 : ℚ)) * 1.2
    ∧ normalizeDeltaY ⟨0, 10, 1⟩ = 160 :=
  ⟨by norm_num [onWheel, canScrollHorizontally, normalizeDeltaY],
   wheel_delta_value 1000 500 ⟨0, 100, 0⟩ ⟨120, "auto"⟩
     (by norm_num [onWheel, canScrollHorizontally, normalizeDeltaY]),
   by norm_num [normalizeDeltaY]⟩

/-- Claim C6: on the timeline's keydown handler, ArrowRight requests a
relative scroll of +260 and ArrowLeft of −260, PageDown requests
+0.8 × clientWidth and PageUp −0.8 × clientWidth, and all four call
`preventDefault` and request smooth-animated scrolling. -/
theorem keydown_contract (cw : ℚ) :
    onKeydown cw "ArrowRight" = ⟨true, some ⟨260, "smooth"⟩⟩
    ∧ onKeydown cw "ArrowLeft" = ⟨true, some ⟨-260, "smooth"⟩⟩
    ∧ onKeydown cw "PageDown" = ⟨true, some ⟨cw * 0.8, "smooth"⟩⟩
    ∧ onKeydown cw "PageUp" = ⟨true, some ⟨-(cw * 0.8), "smooth"⟩⟩ :=
  ⟨rfl, rfl, rfl, rfl⟩

/-- Claim C10: the keyboard path performs no overflow check — even when
the container does not overflow horizontally, all four navigation keys
still call `preventDefault` and issue a scroll request. -/
theorem keydown_ignores_overflow (sw cw : ℚ)
    (h : canScrollHorizontally sw cw = false) :
    ((onKeydown cw "ArrowRight").preventDefault = true ∧
      ((onKeydown cw "ArrowRight").scroll).isSome = true)
    ∧ ((onKeydown cw "ArrowLeft").preventDefault = true ∧
      ((onKeydown cw "ArrowLeft").scroll).isSome = true)
    ∧ ((onKeydown cw "PageDown").preventDefault = true ∧
      ((onKeydown cw "PageDown").scroll).isSome = true)
    ∧ ((onKeydown cw "PageUp").preventDefault = true ∧
      ((onKeydown cw "PageUp").scroll).isSome = true) :=
  ⟨⟨rfl, rfl⟩, ⟨rfl, rfl⟩, ⟨rfl, rfl⟩, ⟨rfl, rfl⟩⟩

/-- Concrete instance of C10: a container with scrollWidth = clientWidth
= 500 does not overflow, yet ArrowRight still scrolls. -/
theorem keydown_ignores_overflow_witness :
    canScrollHorizontally 500 500 = false
    ∧ ((onKeydown 500 "ArrowRight").preventDefault = true ∧
      ((onKeydown 500 "ArrowRight").scroll).isSome = true) :=
  ⟨by norm_num [canScrollHorizontally],
   (keydown_ignores_overflow 500 500 (by norm_num [canScrollHorizontally])).1⟩

/-- `rtlLanguages` from the resolver script. -/
def rtlLanguages : List String := ["ar", "he", "fa", "ur", "yi", "ji", "iw", "ku"]

/-- The number of characters of `text` matched by the resolver's regex
character class U+0590–U+08FF. -/
def countRTLChars (text : String) : Nat :=
  (text.toList.filter (fun c => decide (0x590 ≤ c.toNat ∧ c.toNat ≤ 0x8FF))).length

/-- `hasRTLCharacters` from the resolver script: true when the count of
RTL-range characters exceeds 10% of the text's length. -/
def hasRTLCharacters (text : String) : Bool :=
  decide ((countRTLChars text : ℚ) > (text.length : ℚ) * 0.1)

/-- The language-code extraction inside `setPageDirection`:
`(htmlElement.getAttribute('lang') || 'en').split('-')[0].toLowerCase()`.
An absent attribute is `none`; the JS `||` also replaces the empty
string.  Lowercasing is ASCII, matching `toLowerCase` on the tags the
script compares against. -/
def langCodeOf (langAttr : Option String) : String :=
  let currentLang := match langAttr with
    | none => "en"
    | some s => if s = "" then "en" else s
  String.mk ((currentLang.toList.takeWhile (fun c => c != '-')).map Char.toLower)

/-- `setPageDirection` from the resolver script as a pure function from
the root element's lang attribute and the body text to the dir
attribute value it writes. -/
def setPageDirection (langAttr : Option String) (bodyText : String) : String :=
  if langCodeOf langAttr ∈ rtlLanguages then "rtl"
  else if hasRTLCharacters bodyText then "rtl"
  else "ltr"

/-- Claim C2: with a non-RTL language code (such as `en`, or an absent
tag defaulting to `en`), the dir attribute is `rtl` exactly when the
RTL-range character count strictly exceeds 10% of the text length, and
`ltr` when that proportion is at most 10%. -/
theorem direction_content_threshold (langAttr : Option String) (text : String)
    (h : langCodeOf langAttr ∉ rtlLanguages) :
    (setPageDirection langAttr text = "rtl"
      ↔ (countRTLChars text : ℚ) > (text.length : ℚ) * 0.1)
    ∧ (setPageDirection langAttr text = "ltr"
      ↔ (countRTLChars text : ℚ) ≤ (text.length : ℚ) * 0.1) := by
  unfold setPageDirection hasRTLCharacters
  by_cases hc : (countRTLChars text : ℚ) > (text.length : ℚ) * 0.1
  · simp [h, hc, not_le.mpr hc]
  · simp [h, hc, not_lt.mp hc]

/-- Concrete instance of C2: lang `en` with body text that is one Hebrew
letter (proportion 100% > 10%) resolves to `rtl`. -/
theorem direction_content_threshold_witness :
    setPageDirection (some "en") "א" = "rtl" :=
  ((direction_content_threshold (some "en") "א" (by decide)).1).mpr (by
    rw [show countRTLChars "א" = 1 from rfl, show ("א" : String).length = 1 from rfl]
    norm_num)

/-- Claim C4: any language tag whose primary subtag (before the first
`-`, case-insensitively) is one of ar, he, fa, ur, yi, ji, iw, ku makes
the resolver set dir to `rtl`, for every body text. -/
theorem direction_rtl_language (langAttr : Option String) (text : String)
    (h : langCodeOf langAttr ∈ rtlLanguages) :
    setPageDirection langAttr text = "rtl" := by
  unfold setPageDirection
  simp [h]

/-- Concrete instance of C4: tag `AR-EG` with purely Latin body text
still resolves to `rtl`. -/
theorem direction_rtl_language_witness :
    setPageDirection (some "AR-EG") "hello world" = "rtl" :=
  direction_rtl_language (some "AR-EG") "hello world" (by decide)

/-- Claim C8: empty body text with a non-RTL language tag resolves to
`ltr`; the 10%-of-length comparison is well defined at length zero and
evaluates to false. -/
theorem direction_empty_text (langAttr : Option String)
    (h : langCodeOf langAttr ∉ rtlLanguages) :
    setPageDirection langAttr "" = "ltr"
    ∧ hasRTLCharacters "" = false
    ∧ ¬ ((countRTLChars "" : ℚ) > ((("" : String).length) : ℚ) * 0.1) := by
  have hz : ¬ ((countRTLChars "" : ℚ) > ((("" : String).length) : ℚ) * 0.1) := by
    rw [show countRTLChars "" = 0 from rfl, show ("" : String).length = 0 from rfl]
    norm_num
  refine ⟨?_, ?_, hz⟩
  · exact (direction_content_threshold langAttr "" h).2.mpr (not_lt.mp hz)
  · simp only [hasRTLCharacters, decide_eq_false_iff_not]
    exact hz

/-- Concrete instance of C8: tag `en` with empty body text. -/
theorem direction_empty_text_witness :
    setPageDirection (some "en") "" = "ltr" ∧ hasRTLCharacters "" = false :=
  ⟨(direction_empty_text (some "en") (by decide)).1,
   (direction_empty_text (some "en") (by decide)).2.1⟩

/-- Outcome of the scroll-adapter setup callback. -/
inductive AdapterState where
  | skipped
  | attached
  deriving DecidableEq

/-- The DOMContentLoaded callback of script.js guards its container
with an early return, so a missing container skips setup without
raising. -/
def adapterInit (timelinePresent : Bool) : Except String AdapterState :=
  if timelinePresent then Except.ok AdapterState.attached
  else Except.ok AdapterState.skipped

/-- The resolver's entry point.  The script reads its target element
with no null guard, so when the element is absent the call
`htmlElement.getAttribute('lang')` inside `setPageDirection` throws a
TypeError.  The outer option models presence of the element, the inner
one its lang attribute. -/
def runSetPageDirection (htmlElement : Option (Option String)) (bodyText : String) :
    Except String String :=
  match htmlElement with
  | none => Except.error "TypeError: htmlElement is null"
  | some langAttr => Except.ok (setPageDirection langAttr bodyText)

/-- Claim C7 as stated is false: when the resolver's target root
element is absent, invoking the resolver raises a TypeError instead of
silently skipping. -/
theorem resolver_missing_element_raises :
    runSetPageDirection none "" = Except.error "TypeError: htmlElement is null" :=
  rfl

/-- Claim C7 (amended): the timeline adapter skips all behavior
without error when its container is missing, and the resolver never
raises when its root element is present; but when the root element is
absent, the resolver invocation raises an error rather than silently
skipping. -/
theorem graceful_degradation_amended (langAttr : Option String) (text : String) :
    adapterInit false = Except.ok AdapterState.skipped
    ∧ runSetPageDirection (some langAttr) text
        = Except.ok (setPageDirection langAttr text)
    ∧ ∃ msg, runSetPageDirection none text = Except.error msg :=
  ⟨rfl, rfl, ⟨"TypeError: htmlElement is null", rfl⟩⟩

/-- The environment read by `isTouchOrSmall`: whether `ontouchstart`
exists on `window` and whether the max-width 480px media query
matches. -/
structure Env where
  ontouchstart : Bool
  smallViewport : Bool
  deriving DecidableEq

/-- `isTouchOrSmall` from script.js. -/
def isTouchOrSmall (env : Env) : Bool :=
  env.ontouchstart || env.smallViewport

/-- A user interaction reaching the milestone cards: a click delivered
to card `i`, a keydown delivered to card `i`, or a click landing
outside every card (only the latter reaches the document-level handler
with a target that has no enclosing card).  `interactive` records
whether the event target sits inside a link or button of the card. -/
inductive CardEvent where
  | click (i : Nat) (interactive : Bool)
  | keydown (i : Nat) (k : String) (interactive : Bool)
  | outsideClick
  deriving DecidableEq

/-- The open flags of the milestone cards, in document order: entry `i`
is true when card `i` carries the `open` class. -/
def CardState := List Bool

/-- `toggleCard` from script.js: on touch/small viewports only, and
ignoring clicks on embedded links/buttons, remove `open` from every
card and re-add it to the clicked card unless it was already open. -/
def toggleCard (env : Env) (i : Nat) (interactive : Bool) (cards : List Bool) :
    List Bool :=
  if ! isTouchOrSmall env then cards
  else if interactive then cards
  else if cards.getD i false then cards.map (fun _ => false)
  else (cards.map (fun _ => false)).set i true

/-- One event-dispatch step over the card handlers of script.js: card
clicks run `toggleCard`; Enter/Space keydowns run it under the same
touch/small condition; clicks outside every card reach only the
document handler, which closes all cards on touch/small viewports. -/
def cardStep (env : Env) (ev : CardEvent) (cards : List Bool) : List Bool :=
  match ev with
  | CardEvent.click i interactive => toggleCard env i interactive cards
  | CardEvent.keydown i k interactive =>
      if (k == "Enter" || k == " ") && isTouchOrSmall env then
        toggleCard env i interactive cards
      else cards
  | CardEvent.outsideClick =>
      if isTouchOrSmall env then cards.map (fun _ => false) else cards

/-- Dispatch a sequence of interactions. -/
def runCards (env : Env) (evs : List CardEvent) (cards : List Bool) : List Bool :=
  evs.foldl (fun s ev => cardStep env ev s) cards

/-- Number of cards currently carrying the `open` class. -/
def countOpen : List Bool → Nat
  | [] => 0
  | true :: t => countOpen t + 1
  | false :: t => countOpen t

theorem countOpen_map_false (l : List Bool) :
    countOpen (l.map (fun _ => false)) = 0 := by
  induction l with
  | nil => rfl
  | cons b t ih => simpa [countOpen] using ih

theorem countOpen_set_true (l : List Bool) (i : Nat) (h : countOpen l = 0) :
    countOpen (l.set i true) ≤ 1 := by
  induction l generalizing i with
  | nil => simp [countOpen]
  | cons b t ih =>
    cases b with
    | true => exact absurd h (by simp only [countOpen]; omega)
    | false =>
      have ht : countOpen t = 0 := by simpa [countOpen] using h
      cases i with
      | zero =>
        show countOpen (true :: t) ≤ 1
        simp only [countOpen, ht]
        omega
      | succ j =>
        show countOpen (false :: t.set j true) ≤ 1
        simpa only [countOpen] using ih j ht

theorem countOpen_toggleCard (env : Env) (i : Nat) (interactive : Bool)
    (cards : List Bool) (h : countOpen cards ≤ 1) :
    countOpen (toggleCard env i interactive cards) ≤ 1 := by
  unfold toggleCard
  split
  · exact h
  · split
    · exact h
    · split
      · rw [countOpen_map_false]
        omega
      · exact countOpen_set_true _ i (countOpen_map_false cards)

theorem countOpen_cardStep (env : Env) (ev : CardEvent) (cards : List Bool)
    (h : countOpen cards ≤ 1) :
    countOpen (cardStep env ev cards) ≤ 1 := by
  cases ev with
  | click i interactive => exact countOpen_toggleCard env i interactive cards h
  | keydown i k interactive =>
    simp only [cardStep]
    split
    · exact countOpen_toggleCard env i interactive cards h
    · exact h
  | outsideClick =>
    simp only [cardStep]
    split
    · rw [countOpen_map_false]
      omega
    · exact h

theorem countOpen_runCards (env : Env) (evs : List CardEvent) (cards : List Bool)
    (h : countOpen cards ≤ 1) :
    countOpen (runCards env evs cards) ≤ 1 := by
  induction evs generalizing cards with
  | nil => exact h
  | cons ev t ih => exact ih _ (countOpen_cardStep env ev cards h)

theorem countOpen_replicate_false (n : Nat) :
    countOpen (List.replicate n false) = 0 := by
  induction n with
  | zero => rfl
  | succ m ih => simpa [List.replicate, countOpen] using ih

/-- Claim C3: starting from the all-closed state, any sequence of card
clicks, card keydowns and outside clicks keeps at most one card open;
in particular, on a touch viewport, clicking card 0 and then card 1
leaves only card 1 open, and a subsequent outside click closes both. -/
theorem cards_mutual_exclusion (env : Env) (evs : List CardEvent) (n : Nat) :
    countOpen (runCards env evs (List.replicate n false)) ≤ 1
    ∧ runCards ⟨true, false⟩ [CardEvent.click 0 false, CardEvent.click 1 false]
        (List.replicate 2 false) = [false, true]
    ∧ runCards ⟨true, false⟩
        [CardEvent.click 0 false, CardEvent.click 1 false, CardEvent.outsideClick]
        (List.replicate 2 false) = [false, false] := by
  refine ⟨?_, by decide, by decide⟩
  refine countOpen_runCards env evs _ ?_
  rw [countOpen_replicate_false]
  omega

/-- Claim C9: when the environment is neither touch-capable nor a
narrow viewport, every card click, card keydown and outside click
leaves the card state unchanged. -/
theorem cards_inert_on_wide_viewports (env : Env)
    (h1 : env.ontouchstart = false) (h2 : env.smallViewport = false) :
    ∀ (cards : List Bool) (ev : CardEvent), cardStep env ev cards = cards := by
  intro cards ev
  have ht : isTouchOrSmall env = false := by
    simp [isTouchOrSmall, h1, h2]
  cases ev with
  | click i interactive => simp [cardStep, toggleCard, ht]
  | keydown i k interactive => simp [cardStep, toggleCard, ht]
  | outsideClick => simp [cardStep, ht]

/-- Concrete instance of C9: on a wide non-touch viewport, a click on
card 0 leaves an open card 0 open and everything else unchanged. -/
theorem cards_inert_on_wide_viewports_witness :
    cardStep ⟨false, false⟩ (CardEvent.click 0 false) [true, false] = [true, false] :=
  cards_inert_on_wide_viewports ⟨false, false⟩ rfl rfl [true, false]
    (CardEvent.click 0 false)
